import Mathlib

/-!
Verification of the scheduling/dispatch/retry engine of the social-copilot
repository.  The Python sources `utils/database.py`, `utils/api_clients.py`
and `utils/scheduler.py` are shallowly embedded: the SQLite tables become
lists of records, each Python function becomes a Lean function on that
state, and the only nondeterminism (network outcomes, storage exceptions,
the wall clock) is passed in explicitly as oracle arguments.
-/

namespace SocialCopilot

/-! ## Python string primitives

`pySplit s sep` mirrors Python `s.split(sep)` for a one-character separator
(in particular `"".split(',') == ['']`).  `pyStrip` mirrors `str.strip()`.
`pyTruthy` is Python truthiness of an `Optional[str]` (`None` and `""` are
falsy).  `pyOptStr` is how an `Optional[str]` renders inside an f-string
(`None` prints as `"None"`). -/

def splitAux (sep : Char) : List Char → List Char → List String
  | [], acc => [String.mk acc.reverse]
  | c :: cs, acc =>
      if c = sep then String.mk acc.reverse :: splitAux sep cs []
      else splitAux sep cs (c :: acc)

def pySplit (s : String) (sep : Char) : List String := splitAux sep s.data []

def pyStrip (s : String) : String :=
  String.mk (((s.data.dropWhile Char.isWhitespace).reverse.dropWhile
      Char.isWhitespace).reverse)

def pyTruthy : Option String → Bool
  | none => false
  | some s => s ≠ ""

def pyOptStr : Option String → String
  | none => "None"
  | some s => s

/-! ## Data model

Rows of the two SQLite tables created by `init_database` (database.py).
`posts` columns: id, content, platforms (comma-joined string),
scheduled_time, status, created_at, error_message.  `post_queue` columns:
id, post_id, platform, status, retry_count, last_attempt.  The database
state is the two tables plus the AUTOINCREMENT counters. -/

structure Post where
  id : Nat
  content : String
  platforms : String
  scheduled_time : Option String
  status : String
  created_at : String
  error_message : Option String
deriving DecidableEq, Repr

structure QueueEntry where
  id : Nat
  post_id : Nat
  platform : String
  status : String
  retry_count : Nat
  last_attempt : Option String
deriving DecidableEq, Repr

structure DB where
  posts : List Post
  queue : List QueueEntry
  next_post_id : Nat
  next_queue_id : Nat
deriving DecidableEq, Repr

/-! ## database.py -/

/-- `save_post` (database.py): INSERTs a row into `posts` with the given
column values (created_at takes the SQL default) and returns the new row
id.  There is no validation of any argument. -/
def save_post (db : DB) (content : String) (platforms : String)
    (scheduled_time : Option String) (status : String)
    (error_message : Option String) : DB × Nat :=
  ({ db with
      posts := db.posts ++
        [⟨db.next_post_id, content, platforms, scheduled_time, status,
          "CURRENT_TIMESTAMP", error_message⟩],
      next_post_id := db.next_post_id + 1 },
    db.next_post_id)

/-- `get_post_by_id` (database.py): `SELECT * FROM posts WHERE id = ?`,
first row or `None`. -/
def get_post_by_id (db : DB) (post_id : Nat) : Option Post :=
  db.posts.find? (fun p => decide (p.id = post_id))

/-- Effect of the `update_post_status` UPDATE on one `posts` row. -/
def updatePostRow (post_id : Nat) (status : String)
    (error_message : Option String) (p : Post) : Post :=
  if p.id = post_id then
    if pyTruthy error_message then
      { p with status := status, error_message := error_message }
    else
      { p with status := status }
  else p

/-- `update_post_status` (database.py): `if error_message:` (Python
truthiness, so `None` and `""` both take the else-branch) UPDATE status
and error_message, else UPDATE status only. -/
def update_post_status (db : DB) (post_id : Nat) (status : String)
    (error_message : Option String) : DB :=
  { db with posts := db.posts.map (updatePostRow post_id status error_message) }

/-- `get_scheduled_posts` (database.py): `SELECT * FROM posts WHERE
status = 'scheduled'`.  The source additionally orders by scheduled_time;
the order is immaterial here because recovery (the only consumer we
verify) updates each post through its own id, so we keep table order. -/
def get_scheduled_posts (db : DB) : List Post :=
  db.posts.filter (fun p => decide (p.status = "scheduled"))

/-- `add_to_queue` (database.py): INSERT a `post_queue` row with status
'pending', retry_count defaulting to 0 and last_attempt NULL. -/
def add_to_queue (db : DB) (post_id : Nat) (platform : String) : DB :=
  { db with
      queue := db.queue ++
        [⟨db.next_queue_id, post_id, platform, "pending", 0, none⟩],
      next_queue_id := db.next_queue_id + 1 }

/-- Insertion step used to realise `ORDER BY pq.id ASC`. -/
def insertById (x : QueueEntry × String) :
    List (QueueEntry × String) → List (QueueEntry × String)
  | [] => [x]
  | y :: ys => if x.1.id ≤ y.1.id then x :: y :: ys else y :: insertById x ys

/-- Insertion sort by queue-entry id (ascending), realising the SQL
`ORDER BY pq.id ASC` of `get_queue_items`. -/
def sortById (l : List (QueueEntry × String)) : List (QueueEntry × String) :=
  l.foldr insertById []

/-- `get_queue_items` (database.py): join of pending `post_queue` rows for
the platform with their post (an inner join, so entries whose post is
missing are dropped), ordered by entry id, limited.  Each row carries the
joined post's content, which is what the processor publishes. -/
def get_queue_items (db : DB) (platform : String) (limit : Nat) :
    List (QueueEntry × String) :=
  (sortById (db.queue.filterMap fun e =>
    if e.platform = platform ∧ e.status = "pending" then
      match get_post_by_id db e.post_id with
      | some p => some (e, p.content)
      | none => none
    else none)).take limit

/-- Effect of the `update_queue_status` UPDATE on one `post_queue` row. -/
def updateQueueRow (queue_id : Nat) (status : String)
    (retry_count : Option Nat) (e : QueueEntry) : QueueEntry :=
  if e.id = queue_id then
    match retry_count with
    | some rc =>
        { e with status := status, retry_count := rc,
                 last_attempt := some "CURRENT_TIMESTAMP" }
    | none =>
        { e with status := status,
                 last_attempt := some "CURRENT_TIMESTAMP" }
  else e

/-- `update_queue_status` (database.py): UPDATE status (and retry_count
when one is passed) and stamp last_attempt with CURRENT_TIMESTAMP. -/
def update_queue_status (db : DB) (queue_id : Nat) (status : String)
    (retry_count : Option Nat) : DB :=
  { db with queue := db.queue.map (updateQueueRow queue_id status retry_count) }

/-! ## api_clients.py

The six platform clients all follow the same shape: return
`(False, "No <platform> credentials configured")` when no credentials are
configured, otherwise perform one (for BlueSky two) `requests.post` calls
inside a `try` whose `except requests.exceptions.RequestException` /
`except Exception` clauses turn any raise into a `(False, detail)` pair.
The outside world is an explicit `World`:

* `creds p` is the result of `APIClient._load_credentials` for platform
  `p` — it reads the database, so it may itself raise (`.error`), or
  return `none` (no credentials found) or `some` a credential dict;
* `http n` is the outcome of the n-th `requests.post` call made by the
  client (counted from 0 within one `post` invocation): either a raised
  exception or an `HttpResponse`;
* `json_result` is the outcome of `session_response.json()` plus the
  token extraction in the BlueSky client (it may raise).

Raising is `Except PyErr`; the `.error` constructor marks an exception
escaping, so totality theorems (`= .ok _`) state "never raises". -/

structure HttpResponse where
  status_code : Nat
  text : String
deriving DecidableEq, Repr

/-- A Python exception: whether it is a `requests.exceptions.RequestException`
(the first `except` clause) and its message. -/
structure PyErr where
  is_request_exc : Bool
  msg : String
deriving DecidableEq, Repr

/-- Credential dict, as key/value pairs. -/
def CredDict := List (String × String)

structure World where
  creds : String → Except PyErr (Option CredDict)
  http : Nat → Except PyErr HttpResponse
  json_result : Except PyErr Unit

/-- `PLATFORM_CHAR_LIMITS` (api_clients.py). -/
def PLATFORM_CHAR_LIMITS : List (String × Nat) :=
  [("Facebook", 63206), ("Threads", 500), ("X (Twitter)", 280),
   ("LinkedIn", 3000), ("BlueSky", 300), ("Mastodon", 500)]

/-- Python `dict.get(key, default)` over an association list. -/
def dictGet (d : List (String × Nat)) (key : String) (dflt : Nat) : Nat :=
  match d.find? (fun kv => decide (kv.1 = key)) with
  | some kv => kv.2
  | none => dflt

/-- `validate_content_length` (api_clients.py): for each requested
platform, content is valid iff `len(content) <= PLATFORM_CHAR_LIMITS.get(platform, 280)`. -/
def validate_content_length (content : String) (platforms : List String) :
    List (String × Bool) :=
  platforms.map fun p => (p, decide (content.length ≤ dictGet PLATFORM_CHAR_LIMITS p 280))

/-- `get_rate_limit_delay` (api_clients.py): the per-platform delay table
with default 15 seconds. -/
def get_rate_limit_delay (platform : String) : Nat :=
  dictGet
    [("Facebook", 30), ("Threads", 10), ("X (Twitter)", 5),
     ("LinkedIn", 60), ("BlueSky", 5), ("Mastodon", 10)]
    platform 15

/-- The keys of `PLATFORM_CLIENTS` (api_clients.py). -/
def PLATFORM_CLIENT_KEYS : List String :=
  ["Facebook", "Threads", "X (Twitter)", "LinkedIn", "BlueSky", "Mastodon"]

/-- `except requests.exceptions.RequestException` / `except Exception`
pair of handlers shared by the clients: the first produces
"<name> connection error: ...", the second "<name> unexpected error: ...". -/
def clientHandlers (name : String) (e : PyErr) : Bool × Option String :=
  if e.is_request_exc then (false, some (name ++ " connection error: " ++ e.msg))
  else (false, some (name ++ " unexpected error: " ++ e.msg))

/-- `FacebookClient.post` (api_clients.py): no credentials → failure pair;
otherwise one POST, 200 → success, other code → API-error pair, raise →
handled pair. -/
def facebookPost (w : World) (creds : Option CredDict) (_content : String) :
    Except PyErr (Bool × Option String) :=
  match creds with
  | none => .ok (false, some "No Facebook credentials configured")
  | some _ =>
    match w.http 0 with
    | .error e => .ok (clientHandlers "Facebook" e)
    | .ok r =>
        if r.status_code = 200 then .ok (true, none)
        else .ok (false, some ("Facebook API error: " ++ toString r.status_code
            ++ " - " ++ r.text))

/-- `ThreadsClient.post` (api_clients.py): no credentials → failure pair;
otherwise the stub unconditionally returns the not-yet-available failure. -/
def threadsPost (_w : World) (creds : Option CredDict) (_content : String) :
    Except PyErr (Bool × Option String) :=
  match creds with
  | none => .ok (false, some "No Threads credentials configured")
  | some _ => .ok (false, some "Threads API not yet fully available")

/-- `TwitterClient.post` (api_clients.py): like Facebook but the success
status code is 201. -/
def twitterPost (w : World) (creds : Option CredDict) (_content : String) :
    Except PyErr (Bool × Option String) :=
  match creds with
  | none => .ok (false, some "No Twitter credentials configured")
  | some _ =>
    match w.http 0 with
    | .error e => .ok (clientHandlers "Twitter" e)
    | .ok r =>
        if r.status_code = 201 then .ok (true, none)
        else .ok (false, some ("Twitter API error: " ++ toString r.status_code
            ++ " - " ++ r.text))

/-- `LinkedInClient.post` (api_clients.py): one POST, success code 201. -/
def linkedinPost (w : World) (creds : Option CredDict) (_content : String) :
    Except PyErr (Bool × Option String) :=
  match creds with
  | none => .ok (false, some "No LinkedIn credentials configured")
  | some _ =>
    match w.http 0 with
    | .error e => .ok (clientHandlers "LinkedIn" e)
    | .ok r =>
        if r.status_code = 201 then .ok (true, none)
        else .ok (false, some ("LinkedIn API error: " ++ toString r.status_code
            ++ " - " ++ r.text))

/-- `BlueSkyClient.post` (api_clients.py): createSession POST (non-200 →
auth-error pair), `.json()` token extraction (may raise, handled),
createRecord POST with success code 200. -/
def blueskyPost (w : World) (creds : Option CredDict) (_content : String) :
    Except PyErr (Bool × Option String) :=
  match creds with
  | none => .ok (false, some "No BlueSky credentials configured")
  | some _ =>
    match w.http 0 with
    | .error e => .ok (clientHandlers "BlueSky" e)
    | .ok sr =>
        if sr.status_code ≠ 200 then
          .ok (false, some ("BlueSky auth error: " ++ toString sr.status_code))
        else
          match w.json_result with
          | .error e => .ok (clientHandlers "BlueSky" e)
          | .ok _ =>
            match w.http 1 with
            | .error e => .ok (clientHandlers "BlueSky" e)
            | .ok r =>
                if r.status_code = 200 then .ok (true, none)
                else .ok (false, some ("BlueSky post error: "
                    ++ toString r.status_code ++ " - " ++ r.text))

/-- `MastodonClient.post` (api_clients.py): one POST, success code 200. -/
def mastodonPost (w : World) (creds : Option CredDict) (_content : String) :
    Except PyErr (Bool × Option String) :=
  match creds with
  | none => .ok (false, some "No Mastodon credentials configured")
  | some _ =>
    match w.http 0 with
    | .error e => .ok (clientHandlers "Mastodon" e)
    | .ok r =>
        if r.status_code = 200 then .ok (true, none)
        else .ok (false, some ("Mastodon API error: " ++ toString r.status_code
            ++ " - " ++ r.text))

/-- Dispatch of `PLATFORM_CLIENTS[platform]().post(content)` for a
supported platform, after `_load_credentials` returned `creds`. -/
def clientPost (w : World) (platform : String) (creds : Option CredDict)
    (content : String) : Except PyErr (Bool × Option String) :=
  if platform = "Facebook" then facebookPost w creds content
  else if platform = "Threads" then threadsPost w creds content
  else if platform = "X (Twitter)" then twitterPost w creds content
  else if platform = "LinkedIn" then linkedinPost w creds content
  else if platform = "BlueSky" then blueskyPost w creds content
  else mastodonPost w creds content

/-- `post_to_single_platform` (api_clients.py): unsupported platform →
failure pair; else construct the client (credential loading may raise —
caught by the surrounding `except Exception`) and call its `post`, any
raise from which is likewise caught into "Unexpected error: ...". -/
def post_to_single_platform (w : World) (content : String)
    (platform : String) : Except PyErr (Bool × Option String) :=
  if platform ∈ PLATFORM_CLIENT_KEYS then
    match w.creds platform with
    | .error e => .ok (false, some ("Unexpected error: " ++ e.msg))
    | .ok creds =>
      match clientPost w platform creds content with
      | .error e => .ok (false, some ("Unexpected error: " ++ e.msg))
      | .ok out => .ok out
  else
    .ok (false, some ("Platform '" ++ platform ++ "' not supported"))

/-! ## scheduler.py

The queue worker's publish call `post_to_single_platform(content, platform)`
is abstracted by a `PublishOracle`: given the platform, the content and a
global attempt counter it yields the `(success, error_message)` pair.
`post_to_single_platform_total` below proves the real call indeed always
yields such a pair (it never raises), so a pair-valued oracle loses no
behaviour.  Scheduler state `PState` carries the database, the attempt
counter and the trace of `time.sleep` durations the worker has performed
(one per processed queue item, scheduler.py line 155). -/

def PublishOracle := String → String → Nat → Bool × Option String

/-- The f-string `f"Posted to {completed}/{total} platforms"` of
`check_post_completion`. -/
def postedCountMessage (completed total : Nat) : String :=
  "Posted to " ++ toString completed ++ "/" ++ toString total ++ " platforms"

structure PState where
  db : DB
  tick : Nat
  sleeps : List Nat
deriving Repr

/-- `check_post_completion` (scheduler.py): count the post's queue rows
and their 'completed' / 'failed' subsets with one aggregate query; when
every row is terminal resolve the post to posted / partial / failed.
With zero rows SQLite's `SUM` yields NULL, so `completed + failed == total`
raises `TypeError`, which the surrounding `except` swallows — hence no
action when the post has no queue rows. -/
def check_post_completion (db : DB) (post_id : Nat) : DB :=
  let total := db.queue.countP (fun e => decide (e.post_id = post_id))
  let completed := db.queue.countP
    (fun e => decide (e.post_id = post_id ∧ e.status = "completed"))
  let failed := db.queue.countP
    (fun e => decide (e.post_id = post_id ∧ e.status = "failed"))
  if total = 0 then db
  else if completed + failed = total then
    if completed = total then
      update_post_status db post_id "posted" none
    else if 0 < completed then
      update_post_status db post_id "partial"
        (some (postedCountMessage completed total))
    else
      update_post_status db post_id "failed"
        (some "Failed to post to all platforms")
  else db

/-- Body of the per-item loop of `process_platform_queue` (scheduler.py):
mark the entry 'processing', attempt the publish, on success mark
'completed' and run `check_post_completion`, on failure bump the snapshot
row's retry_count — back to 'pending' while the new count is ≤ 3,
otherwise 'failed' plus marking the owning post failed with
"<platform>: <error>" — then sleep the platform's rate-limit delay. -/
def processItem (oracle : PublishOracle) (platform : String)
    (item : QueueEntry) (content : String) (s : PState) : PState :=
  let db1 := update_queue_status s.db item.id "processing" none
  let res := oracle platform content s.tick
  let db2 :=
    if res.1 then
      check_post_completion
        (update_queue_status db1 item.id "completed" none) item.post_id
    else
      let retry_count := item.retry_count + 1
      if retry_count ≤ 3 then
        update_queue_status db1 item.id "pending" (some retry_count)
      else
        update_post_status
          (update_queue_status db1 item.id "failed" (some retry_count))
          item.post_id "failed"
          (some (platform ++ ": " ++ pyOptStr res.2))
  { db := db2, tick := s.tick + 1,
    sleeps := s.sleeps ++ [get_rate_limit_delay platform] }

/-- `process_platform_queue` (scheduler.py): fetch one batch of at most 5
pending items for the platform and run the per-item loop over the
snapshot. -/
def process_platform_queue (oracle : PublishOracle) (platform : String)
    (s : PState) : PState :=
  (get_queue_items s.db platform 5).foldl
    (fun st ec => processItem oracle platform ec.1 ec.2 st) s

/-- The platform list hard-coded in `queue_worker` (scheduler.py). -/
def QUEUE_PLATFORMS : List String :=
  ["Facebook", "Threads", "X (Twitter)", "LinkedIn", "BlueSky", "Mastodon"]

/-- One iteration of the `queue_worker` while-loop (scheduler.py):
process every platform's queue once. -/
def run_queue_pass (oracle : PublishOracle) (s : PState) : PState :=
  QUEUE_PLATFORMS.foldl (fun st p => process_platform_queue oracle p st) s

/-- `n` iterations of the `queue_worker` while-loop. -/
def run_queue_passes (oracle : PublishOracle) : Nat → PState → PState
  | 0, s => s
  | n + 1, s => run_queue_passes oracle n (run_queue_pass oracle s)

/-- The `for platform in platforms: add_to_queue(post_id, platform.strip())`
loop of `process_scheduled_post`, with an oracle telling whether the i-th
`add_to_queue` call raises (and with what message).  A raise jumps to the
`except` clause, which marks the post failed with a scheduling-error
detail; entries already inserted stay as they are. -/
def fanOutLoop (raises : Nat → Option String) (post_id : Nat) :
    List String → Nat → DB → DB
  | [], _, d => d
  | p :: rest, i, d =>
    match raises i with
    | some msg =>
        update_post_status d post_id "failed"
          (some ("Scheduling error: " ++ msg))
    | none => fanOutLoop raises post_id rest (i + 1) (add_to_queue d post_id (pyStrip p))

/-- `process_scheduled_post` (scheduler.py): re-read the post; silently
no-op unless it still exists with status 'scheduled'; else set it
'posting' and fan it out into one pending queue entry per
comma-separated platform, `raises` governing storage exceptions during
entry creation. -/
def process_scheduled_post (raises : Nat → Option String) (db : DB)
    (post_id : Nat) : DB :=
  match get_post_by_id db post_id with
  | none => db
  | some post =>
    if post.status = "scheduled" then
      fanOutLoop raises post_id (pySplit post.platforms ',') 0
        (update_post_status db post_id "posting" none)
    else db

/-- One iteration of the `reschedule_existing_posts` loop (scheduler.py)
over a snapshot row `p`: skip when scheduled_time is falsy; parse it
(`parse` is `datetime.fromisoformat` plus timezone localisation — `.error`
is the except-branch that marks the post failed with a rescheduling
error); re-arm strictly future posts (recording the post id as the
`add_scheduled_post` call), mark the rest failed with "Missed scheduled
time". -/
def reschedStep (parse : String → Except String Int) (now : Int)
    (acc : DB × List Nat) (p : Post) : DB × List Nat :=
  match p.scheduled_time with
  | none => acc
  | some s =>
    if s = "" then acc
    else
      match parse s with
      | .error msg =>
          (update_post_status acc.1 p.id "failed"
            (some ("Rescheduling error: " ++ msg)), acc.2)
      | .ok t =>
          if now < t then (acc.1, acc.2 ++ [p.id])
          else
            (update_post_status acc.1 p.id "failed"
              (some "Missed scheduled time"), acc.2)

/-- `reschedule_existing_posts` (scheduler.py): iterate the snapshot of
scheduled posts, re-arming future ones (second component: post ids passed
to `add_scheduled_post`) and failing past ones. -/
def reschedule_existing_posts (parse : String → Except String Int)
    (now : Int) (db : DB) : DB × List Nat :=
  (get_scheduled_posts db).foldl (reschedStep parse now) (db, [])

/-! ## The spec's two-platform example scenario

Post "Hello" targeted at X (Twitter) and Mastodon; at fire time the post
is fanned out (no storage errors), then the queue worker runs with the
Twitter adapter always succeeding and the Mastodon adapter always failing
with "503". -/

def scenarioDB0 : DB :=
  { posts := [⟨1, "Hello", "X (Twitter),Mastodon",
      some "2025-06-01T12:00:00+03:00", "scheduled", "2025-06-01 08:00:00",
      none⟩],
    queue := [], next_post_id := 2, next_queue_id := 1 }

def noRaises : Nat → Option String := fun _ => none

/-- Twitter returns `(True, None)`, Mastodon `(False, "503")` on every
attempt. -/
def scenarioOracle : PublishOracle :=
  fun platform _ _ =>
    if platform = "X (Twitter)" then (true, none) else (false, some "503")

/-- Database state right after the trigger fired. -/
def scenarioFired : DB := process_scheduled_post noRaises scenarioDB0 1

/-- Final state after five worker passes (the queues are drained after
four; the fifth confirms quiescence). -/
def scenarioRun : PState :=
  run_queue_passes scenarioOracle 5 ⟨scenarioFired, 0, []⟩

set_option maxRecDepth 10000

/-! ## Concrete instances used by the claim theorems -/

/-- Amended retry invariant: rows never hold a retry_count above 4
(= max-retries + 1), and a row that is still 'pending' — the only state
in which it can be attempted again — holds at most 3. -/
def RetryInv (db : DB) : Prop :=
  ∀ e ∈ db.queue, e.retry_count ≤ 4 ∧ (e.status = "pending" → e.retry_count ≤ 3)

def c7db : DB :=
  { posts := [⟨1, "Hello", "Mastodon", none, "posting", "t", none⟩],
    queue := [⟨1, 1, "Mastodon", "pending", 0, none⟩],
    next_post_id := 2, next_queue_id := 2 }

def c10db : DB :=
  { posts := [⟨1, "hi", "Mastodon", none, "draft", "t", some "old"⟩],
    queue := [], next_post_id := 2, next_queue_id := 1 }

/-- The spec's per-platform character-limit table, written from the spec
sentence (refinement reference for claim C8). -/
def spec_char_limit (p : String) : Option Nat :=
  if p = "Facebook" then some 63206
  else if p = "Threads" then some 500
  else if p = "X (Twitter)" then some 280
  else if p = "LinkedIn" then some 3000
  else if p = "BlueSky" then some 300
  else if p = "Mastodon" then some 500
  else none

def c1db : DB :=
  { posts := [⟨7, "Hello", "X (Twitter),Mastodon", none, "posting", "t",
      none⟩],
    queue := [⟨1, 7, "X (Twitter)", "completed", 0, some "t"⟩,
      ⟨2, 7, "Mastodon", "failed", 4, some "t"⟩],
    next_post_id := 8, next_queue_id := 3 }

def raisesAt1 : Nat → Option String :=
  fun i => if i = 1 then some "disk I/O error" else none

def c4db : DB :=
  { posts := [⟨1, "Hi", "Mastodon", some "T", "scheduled", "t", none⟩],
    queue := [], next_post_id := 2, next_queue_id := 1 }

def c4parse : String → Except String Int := fun _ => .ok 0

def w0 : World :=
  { creds := fun _ => .ok none,
    http := fun _ => .error ⟨true, "timeout"⟩,
    json_result := .ok () }

/-! ## Infrastructure lemmas -/

theorem updatePostRow_frame (pid : Nat) (st : String) (em : Option String)
    (p : Post) :
    (updatePostRow pid st em p).id = p.id ∧
    (updatePostRow pid st em p).content = p.content ∧
    (updatePostRow pid st em p).platforms = p.platforms ∧
    (updatePostRow pid st em p).scheduled_time = p.scheduled_time ∧
    (updatePostRow pid st em p).created_at = p.created_at := by
  unfold updatePostRow
  split_ifs <;> simp

theorem updatePostRow_id (pid : Nat) (st : String) (em : Option String)
    (p : Post) : (updatePostRow pid st em p).id = p.id :=
  (updatePostRow_frame pid st em p).1

theorem updatePostRow_error_of_falsy (pid : Nat) (st : String)
    (em : Option String) (p : Post) (hem : pyTruthy em = false) :
    (updatePostRow pid st em p).error_message = p.error_message := by
  unfold updatePostRow
  split_ifs with h1 h2
  · rw [hem] at h2; cases h2
  · rfl
  · rfl

theorem updatePostRow_other (pid : Nat) (st : String) (em : Option String)
    (p : Post) (h : p.id ≠ pid) : updatePostRow pid st em p = p := by
  simp [updatePostRow, h]

theorem updatePostRow_idem (pid : Nat) (st : String) (em : Option String)
    (p : Post) :
    updatePostRow pid st em (updatePostRow pid st em p) =
      updatePostRow pid st em p := by
  by_cases h : p.id = pid
  · by_cases he : pyTruthy em <;> simp [updatePostRow, h, he]
  · simp [updatePostRow, h]

theorem find?_map_of_id_eq (g : Post → Post) (hg : ∀ p, (g p).id = p.id)
    (l : List Post) (pid : Nat) :
    (l.map g).find? (fun p => decide (p.id = pid)) =
      (l.find? (fun p => decide (p.id = pid))).map g := by
  induction l with
  | nil => rfl
  | cons x xs ih =>
    simp only [List.map_cons, List.find?]
    rw [hg]
    cases h : decide (x.id = pid)
    · exact ih
    · rfl

theorem get_post_by_id_update (db : DB) (pid : Nat) (st : String)
    (em : Option String) (pid' : Nat) :
    get_post_by_id (update_post_status db pid st em) pid' =
      (get_post_by_id db pid').map (updatePostRow pid st em) :=
  find?_map_of_id_eq _ (updatePostRow_id pid st em) db.posts pid'

theorem get_post_by_id_update_other (db : DB) (pid : Nat) (st : String)
    (em : Option String) (pid' : Nat) (h : pid' ≠ pid) :
    get_post_by_id (update_post_status db pid st em) pid' =
      get_post_by_id db pid' := by
  rw [get_post_by_id_update]
  cases hf : get_post_by_id db pid' with
  | none => rfl
  | some p =>
    have hp := List.find?_some hf
    have : p.id = pid' := of_decide_eq_true hp
    rw [Option.map, updatePostRow_other pid st em p (by rw [this]; exact h)]

theorem update_post_status_queue (db : DB) (pid : Nat) (st : String)
    (em : Option String) : (update_post_status db pid st em).queue = db.queue :=
  rfl

theorem update_queue_status_posts (db : DB) (qid : Nat) (st : String)
    (rc : Option Nat) : (update_queue_status db qid st rc).posts = db.posts :=
  rfl

theorem add_to_queue_posts (db : DB) (pid : Nat) (pf : String) :
    (add_to_queue db pid pf).posts = db.posts :=
  rfl

theorem check_post_completion_queue (db : DB) (pid : Nat) :
    (check_post_completion db pid).queue = db.queue := by
  unfold check_post_completion
  dsimp only
  split_ifs <;> rfl

theorem update_post_status_idem (db : DB) (pid : Nat) (st : String)
    (em : Option String) :
    update_post_status (update_post_status db pid st em) pid st em =
      update_post_status db pid st em := by
  unfold update_post_status
  simp only [List.map_map]
  congr 1
  apply List.map_congr_left
  intro p _
  exact updatePostRow_idem pid st em p

theorem find?_eq_of_mem_nodup (l : List Post)
    (hnd : (l.map Post.id).Nodup) (p : Post) (hp : p ∈ l) :
    l.find? (fun q => decide (q.id = p.id)) = some p := by
  induction l with
  | nil => cases hp
  | cons x xs ih =>
    rw [List.map_cons, List.nodup_cons] at hnd
    rcases List.mem_cons.mp hp with rfl | hmem
    · simp [List.find?]
    · rw [List.find?]
      have hne : x.id ≠ p.id := by
        intro h
        exact hnd.1 (h ▸ List.mem_map_of_mem Post.id hmem)
      simp only [decide_eq_true_eq] at *
      rw [decide_eq_false hne]
      exact ih hnd.2 hmem

theorem mem_insertById (x y : QueueEntry × String)
    (l : List (QueueEntry × String)) :
    x ∈ insertById y l ↔ x = y ∨ x ∈ l := by
  induction l with
  | nil => simp [insertById]
  | cons z zs ih =>
    unfold insertById
    split_ifs
    · simp
    · simp only [List.mem_cons, ih]
      tauto

theorem mem_sortById (x : QueueEntry × String)
    (l : List (QueueEntry × String)) : x ∈ sortById l ↔ x ∈ l := by
  induction l with
  | nil => simp [sortById]
  | cons z zs ih =>
    unfold sortById at *
    rw [List.foldr_cons, mem_insertById, ih, List.mem_cons]

theorem get_queue_items_mem (db : DB) (platform : String) (limit : Nat)
    (e : QueueEntry) (c : String)
    (h : (e, c) ∈ get_queue_items db platform limit) :
    e ∈ db.queue ∧ e.platform = platform ∧ e.status = "pending" := by
  unfold get_queue_items at h
  have h2 := List.take_subset limit _ h
  rw [mem_sortById] at h2
  obtain ⟨a, ha, hfa⟩ := List.mem_filterMap.mp h2
  by_cases hcond : a.platform = platform ∧ a.status = "pending"
  · rw [if_pos hcond] at hfa
    cases hfind : get_post_by_id db a.post_id with
    | none => rw [hfind] at hfa; cases hfa
    | some p =>
        rw [hfind] at hfa
        have : a = e := congrArg Prod.fst (Option.some.inj hfa)
        subst this
        exact ⟨ha, hcond.1, hcond.2⟩
  · rw [if_neg hcond] at hfa
    cases hfa

theorem retryInv_of_queue_eq (db db' : DB) (h : db'.queue = db.queue)
    (hinv : RetryInv db) : RetryInv db' := by
  intro e he
  exact hinv e (h ▸ he)

theorem update_queue_status_inv_none (db : DB) (qid : Nat) (st : String)
    (hst : st ≠ "pending") (hinv : RetryInv db) :
    RetryInv (update_queue_status db qid st none) := by
  intro e he
  obtain ⟨a, ha, hae⟩ := List.mem_map.mp he
  obtain ⟨h4, _⟩ := hinv a ha
  subst hae
  unfold updateQueueRow
  split_ifs
  · exact ⟨h4, fun hs => absurd hs hst⟩
  · exact hinv a ha

theorem update_queue_status_inv_some (db : DB) (qid : Nat) (st : String)
    (n : Nat) (h4 : n ≤ 4) (h3 : st = "pending" → n ≤ 3)
    (hinv : RetryInv db) :
    RetryInv (update_queue_status db qid st (some n)) := by
  intro e he
  obtain ⟨a, ha, hae⟩ := List.mem_map.mp he
  subst hae
  unfold updateQueueRow
  split_ifs
  · exact ⟨h4, h3⟩
  · exact hinv a ha

theorem processItem_inv (oracle : PublishOracle) (platform : String)
    (item : QueueEntry) (content : String) (s : PState)
    (hinv : RetryInv s.db) (hrc : item.retry_count ≤ 3) :
    RetryInv (processItem oracle platform item content s).db := by
  unfold processItem
  dsimp only
  have h1 : RetryInv (update_queue_status s.db item.id "processing" none) :=
    update_queue_status_inv_none s.db item.id "processing" (by decide) hinv
  split_ifs with hsucc hretry
  · exact retryInv_of_queue_eq _ _
      (check_post_completion_queue _ _)
      (update_queue_status_inv_none _ item.id "completed" (by decide) h1)
  · exact update_queue_status_inv_some _ item.id "pending" _ (by omega)
      (fun _ => hretry) h1
  · exact retryInv_of_queue_eq _ _
      (update_post_status_queue _ _ _ _)
      (update_queue_status_inv_some _ item.id "failed" _ (by omega)
        (by intro h; exact absurd h (by decide)) h1)

theorem foldl_processItem_inv (oracle : PublishOracle) (platform : String) :
    ∀ (items : List (QueueEntry × String)) (s : PState),
      RetryInv s.db → (∀ ec ∈ items, (ec : QueueEntry × String).1.retry_count ≤ 3) →
      RetryInv ((items.foldl
        (fun st ec => processItem oracle platform ec.1 ec.2 st) s)).db := by
  intro items
  induction items with
  | nil => intro s hinv _; exact hinv
  | cons x xs ih =>
    intro s hinv hall
    rw [List.foldl_cons]
    exact ih _ (processItem_inv oracle platform x.1 x.2 s hinv
        (hall x (List.mem_cons_self x xs)))
      (fun ec hec => hall ec (List.mem_cons_of_mem x hec))

theorem process_platform_queue_inv (oracle : PublishOracle)
    (platform : String) (s : PState) (hinv : RetryInv s.db) :
    RetryInv (process_platform_queue oracle platform s).db := by
  unfold process_platform_queue
  apply foldl_processItem_inv oracle platform _ s hinv
  intro ec hec
  obtain ⟨hmem, _, hpend⟩ :=
    get_queue_items_mem s.db platform 5 ec.1 ec.2 (by
      cases ec; exact hec)
  exact (hinv ec.1 hmem).2 hpend

theorem run_queue_pass_inv (oracle : PublishOracle) (s : PState)
    (hinv : RetryInv s.db) : RetryInv (run_queue_pass oracle s).db := by
  unfold run_queue_pass QUEUE_PLATFORMS
  simp only [List.foldl_cons, List.foldl_nil]
  repeat apply process_platform_queue_inv
  exact hinv

theorem run_queue_passes_inv (oracle : PublishOracle) :
    ∀ (n : Nat) (s : PState), RetryInv s.db →
      RetryInv (run_queue_passes oracle n s).db := by
  intro n
  induction n with
  | zero => intro s h; exact h
  | succ m ih =>
    intro s h
    exact ih _ (run_queue_pass_inv oracle s h)

theorem counts_le (pid : Nat) (l : List QueueEntry) :
    l.countP (fun x => decide (x.post_id = pid ∧ x.status = "completed")) +
      l.countP (fun x => decide (x.post_id = pid ∧ x.status = "failed")) ≤
      l.countP (fun x => decide (x.post_id = pid)) := by
  induction l with
  | nil => simp
  | cons x xs ih =>
    simp only [List.countP_cons]
    have hd : (if (decide (x.post_id = pid ∧ x.status = "completed")) = true
          then 1 else 0) +
        (if (decide (x.post_id = pid ∧ x.status = "failed")) = true
          then 1 else 0) ≤
        (if (decide (x.post_id = pid)) = true then 1 else 0) := by
      by_cases h1 : x.post_id = pid
      · by_cases h2 : x.status = "completed"
        · have h3 : ¬ x.status = "failed" := by rw [h2]; decide
          simp [h1, h2, h3]
        · by_cases h3 : x.status = "failed" <;> simp [h1, h2, h3]
      · simp [h1]
    omega

theorem counts_lt (pid : Nat) (l : List QueueEntry) (e : QueueEntry)
    (he : e ∈ l) (hpid : e.post_id = pid) (hc : e.status ≠ "completed")
    (hf : e.status ≠ "failed") :
    l.countP (fun x => decide (x.post_id = pid ∧ x.status = "completed")) +
      l.countP (fun x => decide (x.post_id = pid ∧ x.status = "failed")) <
      l.countP (fun x => decide (x.post_id = pid)) := by
  induction l with
  | nil => cases he
  | cons x xs ih =>
    simp only [List.countP_cons]
    rcases List.mem_cons.mp he with rfl | hmem
    · have hle := counts_le pid xs
      have h1 : (if (decide (e.post_id = pid ∧ e.status = "completed")) = true
          then 1 else 0) = 0 := by
        have : decide (e.post_id = pid ∧ e.status = "completed") = false := by
          simp [hc]
        rw [this]; rfl
      have h2 : (if (decide (e.post_id = pid ∧ e.status = "failed")) = true
          then 1 else 0) = 0 := by
        have : decide (e.post_id = pid ∧ e.status = "failed") = false := by
          simp [hf]
        rw [this]; rfl
      have h3 : (if (decide (e.post_id = pid)) = true then 1 else 0) = 1 := by
        have : decide (e.post_id = pid) = true := by simp [hpid]
        rw [this]; rfl
      rw [h1, h2, h3]
      omega
    · have hih := ih hmem
      have hd : (if (decide (x.post_id = pid ∧ x.status = "completed")) = true
            then 1 else 0) +
          (if (decide (x.post_id = pid ∧ x.status = "failed")) = true
            then 1 else 0) ≤
          (if (decide (x.post_id = pid)) = true then 1 else 0) := by
        by_cases h1 : x.post_id = pid
        · by_cases h2 : x.status = "completed"
          · have h3 : ¬ x.status = "failed" := by rw [h2]; decide
            simp [h1, h2, h3]
          · by_cases h3 : x.status = "failed" <;> simp [h1, h2, h3]
        · simp [h1]
      omega

theorem check_post_completion_noop (db : DB) (pid : Nat)
    (h : ∃ e ∈ db.queue,
      e.post_id = pid ∧ e.status ≠ "completed" ∧ e.status ≠ "failed") :
    check_post_completion db pid = db := by
  obtain ⟨e, he, hpid, hc, hf⟩ := h
  have hlt := counts_lt pid db.queue e he hpid hc hf
  unfold check_post_completion
  dsimp only
  split_ifs <;> first | rfl | omega

theorem check_post_completion_idem (db : DB) (pid : Nat) :
    check_post_completion (check_post_completion db pid) pid =
      check_post_completion db pid := by
  by_cases h0 : db.queue.countP (fun e => decide (e.post_id = pid)) = 0
  · have hin : check_post_completion db pid = db := by
      unfold check_post_completion; dsimp only; rw [if_pos h0]
    rw [hin, hin]
  · by_cases hdone :
      db.queue.countP (fun e => decide (e.post_id = pid ∧ e.status = "completed")) +
        db.queue.countP (fun e => decide (e.post_id = pid ∧ e.status = "failed")) =
        db.queue.countP (fun e => decide (e.post_id = pid))
    · by_cases hall :
        db.queue.countP (fun e => decide (e.post_id = pid ∧ e.status = "completed")) =
          db.queue.countP (fun e => decide (e.post_id = pid))
      · have hin : check_post_completion db pid =
            update_post_status db pid "posted" none := by
          unfold check_post_completion; dsimp only
          rw [if_neg h0, if_pos hdone, if_pos hall]
        rw [hin]
        unfold check_post_completion
        dsimp only
        rw [update_post_status_queue]
        rw [if_neg h0, if_pos hdone, if_pos hall]
        exact update_post_status_idem db pid "posted" none
      · by_cases hpos : 0 <
          db.queue.countP (fun e => decide (e.post_id = pid ∧ e.status = "completed"))
        · have hin : check_post_completion db pid =
              update_post_status db pid "partial"
                (some (postedCountMessage
                  (db.queue.countP
                    (fun e => decide (e.post_id = pid ∧ e.status = "completed")))
                  (db.queue.countP (fun e => decide (e.post_id = pid))))) := by
            unfold check_post_completion; dsimp only
            rw [if_neg h0, if_pos hdone, if_neg hall, if_pos hpos]
          rw [hin]
          unfold check_post_completion
          dsimp only
          rw [update_post_status_queue]
          rw [if_neg h0, if_pos hdone, if_neg hall, if_pos hpos]
          exact update_post_status_idem db pid "partial" _
        · have hin : check_post_completion db pid =
              update_post_status db pid "failed"
                (some "Failed to post to all platforms") := by
            unfold check_post_completion; dsimp only
            rw [if_neg h0, if_pos hdone, if_neg hall, if_neg hpos]
          rw [hin]
          unfold check_post_completion
          dsimp only
          rw [update_post_status_queue]
          rw [if_neg h0, if_pos hdone, if_neg hall, if_neg hpos]
          exact update_post_status_idem db pid "failed" _
    · have hin : check_post_completion db pid = db := by
        unfold check_post_completion; dsimp only
        rw [if_neg h0, if_neg hdone]
      rw [hin, hin]

theorem processItem_sleeps (oracle : PublishOracle) (platform : String)
    (item : QueueEntry) (content : String) (s : PState) :
    (processItem oracle platform item content s).sleeps =
      s.sleeps ++ [get_rate_limit_delay platform] := rfl

theorem foldl_processItem_sleeps (oracle : PublishOracle) (platform : String) :
    ∀ (items : List (QueueEntry × String)) (s : PState),
      ((items.foldl
          (fun st ec => processItem oracle platform ec.1 ec.2 st) s)).sleeps =
        s.sleeps ++
          List.replicate items.length (get_rate_limit_delay platform) := by
  intro items
  induction items with
  | nil => intro s; simp
  | cons x xs ih =>
    intro s
    rw [List.foldl_cons, ih, processItem_sleeps]
    simp [List.replicate_succ]

/-! ## Claim theorems -/

/-- Claim C7: the Completion Aggregator is idempotent — invoking
`check_post_completion` while some queue entry of the post is
non-terminal leaves the database unchanged, and re-invoking it after any
invocation yields the same database (same final post status and
detail). -/
theorem C7_check_post_completion_idempotent :
    ∀ (db : DB) (pid : Nat),
      ((∃ e ∈ db.queue,
          e.post_id = pid ∧ e.status ≠ "completed" ∧ e.status ≠ "failed") →
        check_post_completion db pid = db) ∧
      check_post_completion (check_post_completion db pid) pid =
        check_post_completion db pid :=
  fun db pid =>
    ⟨check_post_completion_noop db pid, check_post_completion_idem db pid⟩

/-- Claim C7 witness: the aggregator is a no-op on a concrete post with a
pending entry, and idempotent there. -/
theorem C7_witness :
    check_post_completion c7db 1 = c7db ∧
    check_post_completion (check_post_completion c7db 1) 1 =
      check_post_completion c7db 1 :=
  ⟨(C7_check_post_completion_idempotent c7db 1).1
      ⟨⟨1, 1, "Mastodon", "pending", 0, none⟩, by decide, by decide,
        by decide, by decide⟩,
    (C7_check_post_completion_idempotent c7db 1).2⟩

/-- Claim C9: the inter-attempt delay the queue processor sleeps after
each publish attempt equals the configured table value — 30s Facebook,
10s Threads, 5s X (Twitter), 60s LinkedIn, 5s BlueSky, 10s Mastodon, 15s
for any other platform identifier — and one such sleep is recorded per
processed batch item. -/
theorem C9_rate_limit_delays :
    get_rate_limit_delay "Facebook" = 30 ∧
    get_rate_limit_delay "Threads" = 10 ∧
    get_rate_limit_delay "X (Twitter)" = 5 ∧
    get_rate_limit_delay "LinkedIn" = 60 ∧
    get_rate_limit_delay "BlueSky" = 5 ∧
    get_rate_limit_delay "Mastodon" = 10 ∧
    (∀ p, p ∉ PLATFORM_CLIENT_KEYS → get_rate_limit_delay p = 15) ∧
    (∀ (oracle : PublishOracle) (platform : String) (s : PState),
      (process_platform_queue oracle platform s).sleeps =
        s.sleeps ++ List.replicate (get_queue_items s.db platform 5).length
          (get_rate_limit_delay platform)) := by
  refine ⟨rfl, rfl, rfl, rfl, rfl, rfl, ?_, ?_⟩
  · intro p hp
    simp only [PLATFORM_CLIENT_KEYS, List.mem_cons, List.not_mem_nil,
      or_false, not_or] at hp
    unfold get_rate_limit_delay dictGet
    have hnone : (([("Facebook", 30), ("Threads", 10), ("X (Twitter)", 5),
        ("LinkedIn", 60), ("BlueSky", 5), ("Mastodon", 10)] :
        List (String × Nat)).find? (fun kv => decide (kv.1 = p))) = none := by
      rw [List.find?_eq_none]
      intro x hx
      simp only [List.mem_cons, List.not_mem_nil, or_false] at hx
      rcases hx with rfl | rfl | rfl | rfl | rfl | rfl <;>
        simp_all [eq_comm]
    rw [hnone]
  · intro oracle platform s
    unfold process_platform_queue
    exact foldl_processItem_sleeps oracle platform _ s

/-- Claim C9 witness: an unsupported platform gets the 15s default, and a
concrete Mastodon batch of one item records exactly one 10s sleep. -/
theorem C9_witness :
    get_rate_limit_delay "MySpace" = 15 ∧
    (process_platform_queue scenarioOracle "Mastodon"
      ⟨scenarioFired, 0, []⟩).sleeps = [10] := by
  constructor
  · exact C9_rate_limit_delays.2.2.2.2.2.2.1 "MySpace" (by decide)
  · rw [C9_rate_limit_delays.2.2.2.2.2.2.2 scenarioOracle "Mastodon"
      ⟨scenarioFired, 0, []⟩]
    decide

/-- Claim C10: `update_post_status` leaves content, platforms,
scheduled_time and created_at of every post unchanged, and when
error_message is None or the empty string the stored error_message is
also left unchanged — only the status column is updated. -/
theorem C10_update_post_status_frame :
    ∀ (db : DB) (pid : Nat) (st : String) (em : Option String),
      (update_post_status db pid st em).posts.map Post.content =
        db.posts.map Post.content ∧
      (update_post_status db pid st em).posts.map Post.platforms =
        db.posts.map Post.platforms ∧
      (update_post_status db pid st em).posts.map Post.scheduled_time =
        db.posts.map Post.scheduled_time ∧
      (update_post_status db pid st em).posts.map Post.created_at =
        db.posts.map Post.created_at ∧
      ((em = none ∨ em = some "") →
        (update_post_status db pid st em).posts.map Post.error_message =
          db.posts.map Post.error_message) := by
  intro db pid st em
  unfold update_post_status
  simp only [List.map_map]
  refine ⟨?_, ?_, ?_, ?_, ?_⟩
  · apply List.map_congr_left
    intro p _
    exact (updatePostRow_frame pid st em p).2.1
  · apply List.map_congr_left
    intro p _
    exact (updatePostRow_frame pid st em p).2.2.1
  · apply List.map_congr_left
    intro p _
    exact (updatePostRow_frame pid st em p).2.2.2.1
  · apply List.map_congr_left
    intro p _
    exact (updatePostRow_frame pid st em p).2.2.2.2
  · intro hem
    apply List.map_congr_left
    intro p _
    apply updatePostRow_error_of_falsy
    rcases hem with rfl | rfl <;> decide

/-- Claim C10 witness: a concrete status-only update keeps content and
error_message. -/
theorem C10_witness :
    (update_post_status c10db 1 "posted" none).posts.map Post.error_message =
      c10db.posts.map Post.error_message ∧
    (update_post_status c10db 1 "posted" none).posts.map Post.content =
      c10db.posts.map Post.content :=
  ⟨(C10_update_post_status_frame c10db 1 "posted" none).2.2.2.2 (Or.inl rfl),
    (C10_update_post_status_frame c10db 1 "posted" none).1⟩

/-- Claim C8: the shared length-validation utility flags content valid
for a platform iff its length is at most that platform's character limit
(per the spec's table), and a 600-character post is invalid for Mastodon
yet valid for Facebook. -/
theorem C8_validate_content_length :
    (∀ (content : String) (platforms : List String) (p : String) (L : Nat)
        (b : Bool),
      spec_char_limit p = some L →
      (p, b) ∈ validate_content_length content platforms →
      (b = true ↔ content.length ≤ L)) ∧
    validate_content_length (String.mk (List.replicate 600 'a'))
        ["Mastodon", "Facebook"] =
      [("Mastodon", false), ("Facebook", true)] := by
  constructor
  · intro content platforms p L b hL hmem
    unfold validate_content_length at hmem
    obtain ⟨q, _, heq⟩ := List.mem_map.mp hmem
    have hp : q = p := congrArg Prod.fst heq
    have hb : decide (content.length ≤ dictGet PLATFORM_CHAR_LIMITS q 280) = b :=
      congrArg Prod.snd heq
    subst hp
    subst hb
    have hlim : dictGet PLATFORM_CHAR_LIMITS q 280 = L := by
      unfold spec_char_limit at hL
      split_ifs at hL with h1 h2 h3 h4 h5 h6
      · subst h1; cases hL; decide
      · subst h2; cases hL; decide
      · subst h3; cases hL; decide
      · subst h4; cases hL; decide
      · subst h5; cases hL; decide
      · subst h6; cases hL; decide
    rw [hlim, decide_eq_true_eq]
  · decide

/-- Claim C8 witness: the iff applied at the example instance — the
600-character content against Mastodon's 500 limit, where the utility
returned `false`. -/
theorem C8_witness :
    (false = true) ↔ (String.mk (List.replicate 600 'a')).length ≤ 500 :=
  C8_validate_content_length.1 (String.mk (List.replicate 600 'a'))
    ["Mastodon", "Facebook"] "Mastodon" 500 false (by decide) (by decide)

/-- Claim C5 counterexample: `save_post` happily stores a post whose
platform set is empty — no rejection happens at the persistence layer. -/
theorem C5_counterexample :
    ((save_post ⟨[], [], 1, 1⟩ "hello" "" none "draft" none).1.posts.map
      (fun p => (p.content, p.platforms, p.status))) =
      [("hello", "", "draft")] := by decide

/-- Claim C5 (amended): `save_post` performs no validation whatsoever —
for every input, including an empty platform string, it appends exactly
the given record.  (Empty-platform rejection happens only in the UI
layer, before `save_post` is called.) -/
theorem C5_amended_save_post_no_validation :
    ∀ (db : DB) (content : String) (platforms : String)
      (scheduled_time : Option String) (st : String) (em : Option String),
      (save_post db content platforms scheduled_time st em).1.posts =
        db.posts ++ [⟨db.next_post_id, content, platforms, scheduled_time,
          st, "CURRENT_TIMESTAMP", em⟩] :=
  fun _ _ _ _ _ _ => rfl

/-- Claim C1 counterexample: in the spec's two-platform example run
(Twitter always succeeds, Mastodon always fails with "503") the final
post status is 'failed' with detail "Mastodon: 503" — the failure path
updates the post directly and the aggregator never runs after the final
failure — and the failing entry ends with retry_count 4, not 3. -/
theorem C1_counterexample :
    (get_post_by_id scenarioRun.db 1).map
        (fun p => (p.status, p.error_message)) =
      some ("failed", some "Mastodon: 503") ∧
    scenarioRun.db.queue.map (fun e => (e.platform, e.status, e.retry_count)) =
      [("X (Twitter)", "completed", 0), ("Mastodon", "failed", 4)] ∧
    ¬ ((get_post_by_id scenarioRun.db 1).map Post.status = some "partial") ∧
    ¬ (∃ e ∈ scenarioRun.db.queue,
        e.platform = "Mastodon" ∧ e.retry_count = 3) := by decide

theorem get_post_by_id_id (db : DB) (pid : Nat) (p : Post)
    (h : get_post_by_id db pid = some p) : p.id = pid := by
  unfold get_post_by_id at h
  have h2 := List.find?_some h
  simp only [decide_eq_true_eq] at h2
  exact h2

theorem append_ne_empty_of_left (s t : String) (h : s.data ≠ []) :
    s ++ t ≠ "" := by
  intro he
  apply h
  have hd : (s ++ t).data = [] := congrArg String.data he
  rw [String.data_append] at hd
  exact (List.append_eq_nil.mp hd).1

theorem postedCountMessage_ne_empty (c t : Nat) : postedCountMessage c t ≠ "" := by
  unfold postedCountMessage
  intro he
  have hd := congrArg String.data he
  repeat rw [String.data_append] at hd
  have h1 := (List.append_eq_nil.mp hd).1
  have h2 := (List.append_eq_nil.mp h1).1
  have h3 := (List.append_eq_nil.mp h2).1
  have h4 := (List.append_eq_nil.mp h3).1
  exact absurd h4 (by decide)

theorem pyTruthy_postedCountMessage (c t : Nat) :
    pyTruthy (some (postedCountMessage c t)) = true := by
  unfold pyTruthy
  exact decide_eq_true (postedCountMessage_ne_empty c t)

/-- Claim C1 (amended): once all N (N > 0) queue entries of a post are
terminal, an aggregator invocation resolves the post to 'posted' iff all
N are completed, to 'failed' with detail "Failed to post to all
platforms" iff none is completed, and to 'partial' with detail
"Posted to X/N platforms" iff the terminal entries are a mix.  In
the spec's two-platform example, however, the aggregator is never invoked
after the final Mastodon failure (`process_platform_queue` only invokes
it after successes and updates the post to 'failed' directly on
max-retry exhaustion), so the final state is post 'failed' with
"Mastodon: 503", the Twitter entry 'completed', and the Mastodon entry
'failed' with retry_count 4. -/
theorem C1_amended_completion_classification :
    (∀ (db : DB) (pid : Nat) (p : Post),
      get_post_by_id db pid = some p →
      0 < db.queue.countP (fun e => decide (e.post_id = pid)) →
      db.queue.countP
          (fun e => decide (e.post_id = pid ∧ e.status = "completed")) +
        db.queue.countP
          (fun e => decide (e.post_id = pid ∧ e.status = "failed")) =
        db.queue.countP (fun e => decide (e.post_id = pid)) →
      ∃ p', get_post_by_id (check_post_completion db pid) pid = some p' ∧
        (p'.status = "posted" ↔
          db.queue.countP
              (fun e => decide (e.post_id = pid ∧ e.status = "completed")) =
            db.queue.countP (fun e => decide (e.post_id = pid))) ∧
        ((p'.status = "failed" ∧ p'.error_message =
            some "Failed to post to all platforms") ↔
          db.queue.countP
            (fun e => decide (e.post_id = pid ∧ e.status = "completed")) = 0) ∧
        ((p'.status = "partial" ∧ p'.error_message =
            some (postedCountMessage
              (db.queue.countP
                (fun e => decide (e.post_id = pid ∧ e.status = "completed")))
              (db.queue.countP (fun e => decide (e.post_id = pid))))) ↔
          (0 < db.queue.countP
              (fun e => decide (e.post_id = pid ∧ e.status = "completed")) ∧
            db.queue.countP
                (fun e => decide (e.post_id = pid ∧ e.status = "completed")) <
              db.queue.countP (fun e => decide (e.post_id = pid))))) ∧
    ((get_post_by_id scenarioRun.db 1).map
        (fun q => (q.status, q.error_message)) =
      some ("failed", some "Mastodon: 503") ∧
      scenarioRun.db.queue.map
          (fun e => (e.platform, e.status, e.retry_count)) =
        [("X (Twitter)", "completed", 0), ("Mastodon", "failed", 4)]) := by
  constructor
  · intro db pid p hp h0 hdone
    have hid : p.id = pid := get_post_by_id_id db pid p hp
    have h0' : ¬ db.queue.countP (fun e => decide (e.post_id = pid)) = 0 := by
      omega
    by_cases hall :
        db.queue.countP
            (fun e => decide (e.post_id = pid ∧ e.status = "completed")) =
          db.queue.countP (fun e => decide (e.post_id = pid))
    · have hch : check_post_completion db pid =
          update_post_status db pid "posted" none := by
        unfold check_post_completion
        dsimp only
        rw [if_neg h0', if_pos hdone, if_pos hall]
      refine ⟨{ p with status := "posted" }, ?_, ?_, ?_, ?_⟩
      · rw [hch, get_post_by_id_update, hp]
        show some (updatePostRow pid "posted" none p) = _
        unfold updatePostRow
        rw [if_pos hid]
        rfl
      · exact iff_of_true rfl hall
      · exact iff_of_false
          (fun h => absurd h.1 (show ¬ ("posted" = "failed") by decide))
          (by omega)
      · exact iff_of_false
          (fun h => absurd h.1 (show ¬ ("posted" = "partial") by decide))
          (by omega)
    · have hlt :
          db.queue.countP
              (fun e => decide (e.post_id = pid ∧ e.status = "completed")) <
            db.queue.countP (fun e => decide (e.post_id = pid)) := by
        have := counts_le pid db.queue
        omega
      by_cases hpos : 0 <
          db.queue.countP
            (fun e => decide (e.post_id = pid ∧ e.status = "completed"))
      · have hch : check_post_completion db pid =
            update_post_status db pid "partial"
              (some (postedCountMessage
                (db.queue.countP
                  (fun e => decide (e.post_id = pid ∧ e.status = "completed")))
                (db.queue.countP (fun e => decide (e.post_id = pid))))) := by
          unfold check_post_completion
          dsimp only
          rw [if_neg h0', if_pos hdone, if_neg hall, if_pos hpos]
        refine ⟨{ p with
            status := "partial"
            error_message := some (postedCountMessage
              (db.queue.countP
                (fun e => decide (e.post_id = pid ∧ e.status = "completed")))
              (db.queue.countP (fun e => decide (e.post_id = pid)))) },
          ?_, ?_, ?_, ?_⟩
        · rw [hch, get_post_by_id_update, hp]
          show some (updatePostRow pid "partial" _ p) = _
          unfold updatePostRow
          rw [if_pos hid, if_pos (pyTruthy_postedCountMessage _ _)]
        · exact iff_of_false
            (fun h => absurd h (show ¬ ("partial" = "posted") by decide)) hall
        · exact iff_of_false
            (fun h => absurd h.1 (show ¬ ("partial" = "failed") by decide))
            (by omega)
        · exact iff_of_true ⟨rfl, rfl⟩ ⟨hpos, hlt⟩
      · have hch : check_post_completion db pid =
            update_post_status db pid "failed"
              (some "Failed to post to all platforms") := by
          unfold check_post_completion
          dsimp only
          rw [if_neg h0', if_pos hdone, if_neg hall, if_neg hpos]
        refine ⟨{ p with
            status := "failed"
            error_message := some "Failed to post to all platforms" },
          ?_, ?_, ?_, ?_⟩
        · rw [hch, get_post_by_id_update, hp]
          show some (updatePostRow pid "failed" _ p) = _
          unfold updatePostRow
          rw [if_pos hid]
          rfl
        · exact iff_of_false
            (fun h => absurd h (show ¬ ("failed" = "posted") by decide))
            (by omega)
        · exact iff_of_true ⟨rfl, rfl⟩ (by omega)
        · exact iff_of_false
            (fun h => absurd h.1 (show ¬ ("failed" = "partial") by decide))
            (fun h => absurd h.1 hpos)
  · exact ⟨by decide, by decide⟩

/-- Claim C1 witness: the classification applied to a concrete post with
one completed and one failed entry. -/
theorem C1_amended_witness :
    ∃ p', get_post_by_id (check_post_completion c1db 7) 7 = some p' ∧
      (p'.status = "posted" ↔
        c1db.queue.countP
            (fun e => decide (e.post_id = 7 ∧ e.status = "completed")) =
          c1db.queue.countP (fun e => decide (e.post_id = 7))) ∧
      ((p'.status = "failed" ∧ p'.error_message =
          some "Failed to post to all platforms") ↔
        c1db.queue.countP
          (fun e => decide (e.post_id = 7 ∧ e.status = "completed")) = 0) ∧
      ((p'.status = "partial" ∧ p'.error_message =
          some (postedCountMessage
            (c1db.queue.countP
              (fun e => decide (e.post_id = 7 ∧ e.status = "completed")))
            (c1db.queue.countP (fun e => decide (e.post_id = 7))))) ↔
        (0 < c1db.queue.countP
            (fun e => decide (e.post_id = 7 ∧ e.status = "completed")) ∧
          c1db.queue.countP
              (fun e => decide (e.post_id = 7 ∧ e.status = "completed")) <
            c1db.queue.countP (fun e => decide (e.post_id = 7)))) :=
  C1_amended_completion_classification.1 c1db 7
    ⟨7, "Hello", "X (Twitter),Mastodon", none, "posting", "t", none⟩
    (by decide) (by decide) (by decide)

/-- Claim C2 counterexample: in the example run the Mastodon entry is
marked 'failed' with retry_count 4 — the retry counter does exceed the
configured maximum of 3 at the moment the entry is failed. -/
theorem C2_counterexample :
    (∃ e ∈ scenarioRun.db.queue, e.status = "failed" ∧ e.retry_count = 4) ∧
    ¬ (∀ e ∈ scenarioRun.db.queue, e.retry_count ≤ 3) := by decide

/-- Claim C2 (amended): across any number of worker passes with any
publish outcomes, every queue entry's retry_count stays ≤ 4 = max + 1,
and while an entry is 'pending' (the only status in which it can be
attempted again) its retry_count stays ≤ 3; batches only ever contain
'pending' entries, so an entry marked 'failed' is never attempted again.
In the example run the exhausted entry ends 'failed' with retry_count 4
and the owning post is 'failed' with the platform-naming detail
"Mastodon: 503". -/
theorem C2_retry_bound :
    (∀ (oracle : PublishOracle) (n : Nat) (s : PState),
      RetryInv s.db → RetryInv (run_queue_passes oracle n s).db) ∧
    (∀ (db : DB) (platform : String) (limit : Nat) (e : QueueEntry)
        (c : String),
      (e, c) ∈ get_queue_items db platform limit → e.status = "pending") ∧
    ((get_post_by_id scenarioRun.db 1).map
        (fun p => (p.status, p.error_message)) =
      some ("failed", some "Mastodon: 503") ∧
     scenarioRun.db.queue.map (fun e => (e.status, e.retry_count)) =
      [("completed", 0), ("failed", 4)]) :=
  ⟨fun oracle n s h => run_queue_passes_inv oracle n s h,
   fun db platform limit e c h =>
     (get_queue_items_mem db platform limit e c h).2.2,
   by decide, by decide⟩

/-- Claim C2 witness: the invariant holds after the example run, and a
concrete batch member is pending. -/
theorem C2_witness :
    RetryInv (run_queue_passes scenarioOracle 5 ⟨scenarioFired, 0, []⟩).db ∧
    (⟨2, 1, "Mastodon", "pending", 0, none⟩ : QueueEntry).status =
      "pending" :=
  ⟨C2_retry_bound.1 scenarioOracle 5 ⟨scenarioFired, 0, []⟩
     (by unfold RetryInv; decide),
   C2_retry_bound.2.1 scenarioFired "Mastodon" 5
     ⟨2, 1, "Mastodon", "pending", 0, none⟩ "Hello" (by decide)⟩

theorem foldl_add_to_queue_posts (pid : Nat) :
    ∀ (plats : List String) (d : DB),
      ((plats.foldl (fun dd pf => add_to_queue dd pid (pyStrip pf)) d)).posts =
        d.posts := by
  intro plats
  induction plats with
  | nil => intro d; rfl
  | cons p ps ih =>
    intro d
    rw [List.foldl_cons]
    exact ih _

theorem foldl_add_to_queue_queue_map (pid : Nat) :
    ∀ (plats : List String) (d : DB),
      ((plats.foldl
          (fun dd pf => add_to_queue dd pid (pyStrip pf)) d)).queue.map
          (fun e => (e.post_id, e.platform, e.status)) =
        d.queue.map (fun e => (e.post_id, e.platform, e.status)) ++
          plats.map (fun pf => (pid, pyStrip pf, "pending")) := by
  intro plats
  induction plats with
  | nil => intro d; simp
  | cons p ps ih =>
    intro d
    rw [List.foldl_cons, ih]
    simp [add_to_queue]

theorem fanOutLoop_noRaise (raises : Nat → Option String) (pid : Nat) :
    ∀ (plats : List String) (i : Nat) (d : DB),
      (∀ j, j < plats.length → raises (i + j) = none) →
      fanOutLoop raises pid plats i d =
        plats.foldl (fun dd pf => add_to_queue dd pid (pyStrip pf)) d := by
  intro plats
  induction plats with
  | nil => intro i d _; rfl
  | cons p ps ih =>
    intro i d hnone
    unfold fanOutLoop
    have h0 : raises i = none := by
      have := hnone 0 (by simp)
      simpa using this
    rw [h0, List.foldl_cons]
    refine ih (i + 1) _ (fun j hj => ?_)
    rw [show i + 1 + j = i + (j + 1) by omega]
    exact hnone (j + 1) (by simpa using Nat.succ_lt_succ hj)

theorem fanOutLoop_raise (raises : Nat → Option String) (pid : Nat)
    (msg : String) :
    ∀ (plats : List String) (k i : Nat) (d : DB),
      (∀ j, j < k → raises (i + j) = none) → raises (i + k) = some msg →
      k < plats.length →
      fanOutLoop raises pid plats i d =
        update_post_status
          ((plats.take k).foldl
            (fun dd pf => add_to_queue dd pid (pyStrip pf)) d)
          pid "failed" (some ("Scheduling error: " ++ msg)) := by
  intro plats
  induction plats with
  | nil =>
    intro k i d _ _ hk
    exact absurd hk (by simp)
  | cons p ps ih =>
    intro k i d hnone hk hlen
    cases k with
    | zero =>
      unfold fanOutLoop
      have h0 : raises i = some msg := by simpa using hk
      rw [h0]
      rfl
    | succ m =>
      unfold fanOutLoop
      have h0 : raises i = none := by
        simpa using hnone 0 (Nat.succ_pos m)
      rw [h0, List.take_succ_cons, List.foldl_cons]
      refine ih m (i + 1) _ (fun j hj => ?_) ?_ ?_
      · rw [show i + 1 + j = i + (j + 1) by omega]
        exact hnone (j + 1) (by omega)
      · rw [show i + 1 + m = i + (m + 1) by omega]
        exact hk
      · simpa using Nat.lt_of_succ_lt_succ hlen

theorem updatePostRow_truthy (pid : Nat) (st : String) (em : Option String)
    (p : Post) (hid : p.id = pid) (hem : pyTruthy em = true) :
    updatePostRow pid st em p = { p with
      status := st
      error_message := em } := by
  unfold updatePostRow
  rw [if_pos hid, if_pos hem]

theorem updatePostRow_falsy (pid : Nat) (st : String) (em : Option String)
    (p : Post) (hid : p.id = pid) (hem : pyTruthy em = false) :
    updatePostRow pid st em p = { p with status := st } := by
  unfold updatePostRow
  rw [if_pos hid]
  rw [if_neg (show ¬ (pyTruthy em = true) by rw [hem]; decide)]

theorem pyTruthy_scheduling (msg : String) :
    pyTruthy (some ("Scheduling error: " ++ msg)) = true := by
  unfold pyTruthy
  exact decide_eq_true (append_ne_empty_of_left _ _ (by decide))

theorem get_post_by_id_posts_eq (d1 d2 : DB) (pid : Nat)
    (h : d1.posts = d2.posts) :
    get_post_by_id d1 pid = get_post_by_id d2 pid := by
  unfold get_post_by_id
  rw [h]

/-- Claim C3 counterexample: firing the example post with the second
`add_to_queue` call raising marks the post failed with a scheduling-error
detail but leaves the first, already-created entry 'pending' — the
fan-out is not atomic. -/
theorem C3_counterexample :
    (get_post_by_id (process_scheduled_post raisesAt1 scenarioDB0 1) 1).map
        (fun p => (p.status, p.error_message)) =
      some ("failed", some "Scheduling error: disk I/O error") ∧
    (process_scheduled_post raisesAt1 scenarioDB0 1).queue.map
        (fun e => (e.post_id, e.platform, e.status)) =
      [(1, "X (Twitter)", "pending")] := by decide

/-- Claim C3 (amended): when `process_scheduled_post` fires for a post in
status 'scheduled', either every entry creation succeeds — one 'pending'
queue entry per target platform and the post set to 'posting' — or, if
entry creation fails partway, the post is marked 'failed' with a
scheduling-error detail but the entries created before the failure remain
'pending' (there is no rollback). -/
theorem C3_amended_fanout :
    ∀ (raises : Nat → Option String) (db : DB) (pid : Nat) (post : Post),
      get_post_by_id db pid = some post →
      post.status = "scheduled" →
      ((∀ i, i < (pySplit post.platforms ',').length → raises i = none) →
        get_post_by_id (process_scheduled_post raises db pid) pid =
          some { post with status := "posting" } ∧
        (process_scheduled_post raises db pid).queue.map
            (fun e => (e.post_id, e.platform, e.status)) =
          db.queue.map (fun e => (e.post_id, e.platform, e.status)) ++
            (pySplit post.platforms ',').map
              (fun pf => (pid, pyStrip pf, "pending"))) ∧
      (∀ (k : Nat) (msg : String),
        (∀ i, i < k → raises i = none) → raises k = some msg →
        k < (pySplit post.platforms ',').length →
        get_post_by_id (process_scheduled_post raises db pid) pid =
          some { post with
            status := "failed"
            error_message := some ("Scheduling error: " ++ msg) } ∧
        (process_scheduled_post raises db pid).queue.map
            (fun e => (e.post_id, e.platform, e.status)) =
          db.queue.map (fun e => (e.post_id, e.platform, e.status)) ++
            ((pySplit post.platforms ',').take k).map
              (fun pf => (pid, pyStrip pf, "pending"))) := by
  intro raises db pid post hpost hstatus
  have hid : post.id = pid := get_post_by_id_id db pid post hpost
  have hps : process_scheduled_post raises db pid =
      fanOutLoop raises pid (pySplit post.platforms ',') 0
        (update_post_status db pid "posting" none) := by
    unfold process_scheduled_post
    rw [hpost]
    dsimp only
    rw [if_pos hstatus]
  constructor
  · intro hnone
    rw [hps, fanOutLoop_noRaise raises pid _ 0 _
      (fun j hj => by rw [Nat.zero_add]; exact hnone j hj)]
    constructor
    · rw [get_post_by_id_posts_eq _ (update_post_status db pid "posting" none)
        pid (foldl_add_to_queue_posts pid _ _)]
      rw [get_post_by_id_update, hpost]
      show some (updatePostRow pid "posting" none post) = _
      rw [updatePostRow_falsy pid "posting" none post hid rfl]
    · rw [foldl_add_to_queue_queue_map]
      rfl
  · intro k msg hnone hk hlen
    rw [hps, fanOutLoop_raise raises pid msg _ k 0 _
      (fun j hj => by rw [Nat.zero_add]; exact hnone j hj)
      (by rw [Nat.zero_add]; exact hk) hlen]
    constructor
    · rw [get_post_by_id_update]
      rw [get_post_by_id_posts_eq _ (update_post_status db pid "posting" none)
        pid (foldl_add_to_queue_posts pid _ _)]
      rw [get_post_by_id_update, hpost]
      show some (updatePostRow pid "failed"
        (some ("Scheduling error: " ++ msg))
        (updatePostRow pid "posting" none post)) = _
      rw [updatePostRow_falsy pid "posting" none post hid rfl]
      rw [updatePostRow_truthy pid "failed" _
        { post with status := "posting" }
        (show ({ post with status := "posting" } : Post).id = pid from hid)
        (pyTruthy_scheduling msg)]
    · rw [update_post_status_queue, foldl_add_to_queue_queue_map]
      rfl

/-- Claim C3 witness: the successful fan-out applied to the concrete
example post (no storage errors). -/
theorem C3_witness :
    get_post_by_id (process_scheduled_post noRaises scenarioDB0 1) 1 =
      some { (⟨1, "Hello", "X (Twitter),Mastodon",
        some "2025-06-01T12:00:00+03:00", "scheduled", "2025-06-01 08:00:00",
        none⟩ : Post) with status := "posting" } ∧
    (process_scheduled_post noRaises scenarioDB0 1).queue.map
        (fun e => (e.post_id, e.platform, e.status)) =
      scenarioDB0.queue.map (fun e => (e.post_id, e.platform, e.status)) ++
        (pySplit ("X (Twitter),Mastodon" : String) ',').map
          (fun pf => (1, pyStrip pf, "pending")) :=
  (C3_amended_fanout noRaises scenarioDB0 1
    ⟨1, "Hello", "X (Twitter),Mastodon", some "2025-06-01T12:00:00+03:00",
      "scheduled", "2025-06-01 08:00:00", none⟩
    (by decide) (by decide)).1 (fun i _ => rfl)

theorem reschedStep_queue (parse : String → Except String Int) (now : Int)
    (acc : DB × List Nat) (q : Post) :
    ((reschedStep parse now acc q)).1.queue = acc.1.queue := by
  unfold reschedStep
  rcases hst : q.scheduled_time with _ | s
  · rfl
  · dsimp only
    split_ifs
    · rfl
    · rcases hp : parse s with m | t
      · rfl
      · dsimp only
        split_ifs <;> rfl

theorem foldl_resched_queue (parse : String → Except String Int)
    (now : Int) :
    ∀ (l : List Post) (acc : DB × List Nat),
      ((l.foldl (reschedStep parse now) acc)).1.queue = acc.1.queue := by
  intro l
  induction l with
  | nil => intro acc; rfl
  | cons q qs ih =>
    intro acc
    rw [List.foldl_cons, ih, reschedStep_queue]

theorem reschedStep_other (parse : String → Except String Int) (now : Int)
    (acc : DB × List Nat) (q : Post) (pid : Nat) (hq : q.id ≠ pid) :
    get_post_by_id (reschedStep parse now acc q).1 pid =
      get_post_by_id acc.1 pid ∧
    (pid ∈ (reschedStep parse now acc q).2 ↔ pid ∈ acc.2) := by
  unfold reschedStep
  rcases hst : q.scheduled_time with _ | s
  · exact ⟨rfl, Iff.rfl⟩
  · dsimp only
    split_ifs
    · exact ⟨rfl, Iff.rfl⟩
    · rcases hp : parse s with m | t
      · exact ⟨get_post_by_id_update_other acc.1 q.id "failed" _ pid
          (Ne.symm hq), Iff.rfl⟩
      · dsimp only
        split_ifs
        · refine ⟨rfl, ?_⟩
          constructor
          · intro h
            rcases List.mem_append.mp h with h | h
            · exact h
            · exact absurd (List.mem_singleton.mp h) (Ne.symm hq)
          · intro h
            exact List.mem_append.mpr (Or.inl h)
        · exact ⟨get_post_by_id_update_other acc.1 q.id "failed" _ pid
            (Ne.symm hq), Iff.rfl⟩

theorem foldl_resched_other (parse : String → Except String Int)
    (now : Int) (pid : Nat) :
    ∀ (l : List Post) (acc : DB × List Nat),
      (∀ q ∈ l, q.id ≠ pid) →
      get_post_by_id ((l.foldl (reschedStep parse now) acc)).1 pid =
        get_post_by_id acc.1 pid ∧
      (pid ∈ ((l.foldl (reschedStep parse now) acc)).2 ↔ pid ∈ acc.2) := by
  intro l
  induction l with
  | nil => intro acc _; exact ⟨rfl, Iff.rfl⟩
  | cons q qs ih =>
    intro acc hne
    rw [List.foldl_cons]
    have hstep := reschedStep_other parse now acc q pid
      (hne q (List.mem_cons_self q qs))
    have hrest := ih (reschedStep parse now acc q)
      (fun x hx => hne x (List.mem_cons_of_mem q hx))
    exact ⟨hrest.1.trans hstep.1, hrest.2.trans hstep.2⟩

/-- Claim C4: on recovery, every persisted 'scheduled' post with a
parseable scheduled_time in the past (≤ now) is transitioned to 'failed'
with the "Missed scheduled time" detail and is never fanned out (no queue
entry is created and it is not re-armed), while every 'scheduled' post
with a strictly future time is re-armed (passed to
`add_scheduled_post`) unchanged. -/
theorem C4_reschedule_recovery :
    ∀ (parse : String → Except String Int) (now : Int) (db : DB) (p : Post)
      (s : String) (t : Int),
      (db.posts.map Post.id).Nodup →
      p ∈ db.posts → p.status = "scheduled" →
      p.scheduled_time = some s → s ≠ "" → parse s = .ok t →
      ((t ≤ now →
        get_post_by_id (reschedule_existing_posts parse now db).1 p.id =
          some { p with
            status := "failed"
            error_message := some "Missed scheduled time" } ∧
        p.id ∉ (reschedule_existing_posts parse now db).2 ∧
        (reschedule_existing_posts parse now db).1.queue = db.queue) ∧
      (now < t →
        p.id ∈ (reschedule_existing_posts parse now db).2 ∧
        get_post_by_id (reschedule_existing_posts parse now db).1 p.id =
          some p)) := by
  intro parse now db p s t hnd hmem hstatus hst hsne hparse
  have hsnapmem : p ∈ get_scheduled_posts db := by
    unfold get_scheduled_posts
    exact List.mem_filter.mpr ⟨hmem, by rw [hstatus]; decide⟩
  have hsnapnd : ((get_scheduled_posts db).map Post.id).Nodup := by
    apply List.Nodup.sublist _ hnd
    apply List.Sublist.map
    unfold get_scheduled_posts
    exact List.filter_sublist db.posts
  obtain ⟨l1, l2, hsnap⟩ := List.append_of_mem hsnapmem
  have hnd2 : (l1.map Post.id ++ p.id :: l2.map Post.id).Nodup := by
    rw [hsnap] at hsnapnd
    simpa using hsnapnd
  have hnotmem : p.id ∉ l1.map Post.id ++ l2.map Post.id ∧
      (l1.map Post.id ++ l2.map Post.id).Nodup := by
    have := List.nodup_middle.mp hnd2
    exact ⟨(List.nodup_cons.mp this).1, (List.nodup_cons.mp this).2⟩
  have hne1 : ∀ q ∈ l1, q.id ≠ p.id := by
    intro q hq heq
    exact hnotmem.1 (List.mem_append.mpr
      (Or.inl (heq ▸ List.mem_map_of_mem Post.id hq)))
  have hne2 : ∀ q ∈ l2, q.id ≠ p.id := by
    intro q hq heq
    exact hnotmem.1 (List.mem_append.mpr
      (Or.inr (heq ▸ List.mem_map_of_mem Post.id hq)))
  have hget : get_post_by_id db p.id = some p := by
    unfold get_post_by_id
    exact find?_eq_of_mem_nodup db.posts hnd p hmem
  have hres : reschedule_existing_posts parse now db =
      l2.foldl (reschedStep parse now)
        (reschedStep parse now (l1.foldl (reschedStep parse now) (db, [])) p) := by
    unfold reschedule_existing_posts
    rw [hsnap, List.foldl_append, List.foldl_cons]
  have hacc1 := foldl_resched_other parse now p.id l1 (db, []) hne1
  have hstep : reschedStep parse now
      (l1.foldl (reschedStep parse now) (db, [])) p =
      (if now < t then
        ((l1.foldl (reschedStep parse now) (db, [])).1,
          (l1.foldl (reschedStep parse now) (db, [])).2 ++ [p.id])
      else
        (update_post_status (l1.foldl (reschedStep parse now) (db, [])).1
          p.id "failed" (some "Missed scheduled time"),
          (l1.foldl (reschedStep parse now) (db, [])).2)) := by
    unfold reschedStep
    rw [hst]
    dsimp only
    rw [if_neg hsne, hparse]
  constructor
  · intro hpast
    have hstep2 : reschedStep parse now
        (l1.foldl (reschedStep parse now) (db, [])) p =
        (update_post_status (l1.foldl (reschedStep parse now) (db, [])).1
          p.id "failed" (some "Missed scheduled time"),
          (l1.foldl (reschedStep parse now) (db, [])).2) := by
      rw [hstep, if_neg (by omega)]
    have hrest := foldl_resched_other parse now p.id l2
      (reschedStep parse now (l1.foldl (reschedStep parse now) (db, [])) p)
      hne2
    refine ⟨?_, ?_, ?_⟩
    · rw [hres, hrest.1, hstep2]
      show get_post_by_id (update_post_status _ p.id "failed" _) p.id = _
      rw [get_post_by_id_update, hacc1.1, hget]
      show some (updatePostRow p.id "failed" _ p) = _
      rw [updatePostRow_truthy p.id "failed" _ p rfl (by decide)]
    · rw [hres]
      intro hmem2
      have := (hrest.2.mp hmem2)
      rw [hstep2] at this
      exact absurd (hacc1.2.mp this) (List.not_mem_nil p.id)
    · rw [hres, foldl_resched_queue, hstep2]
      show (update_post_status _ p.id "failed" _).queue = db.queue
      rw [update_post_status_queue, foldl_resched_queue]
  · intro hfut
    have hstep2 : reschedStep parse now
        (l1.foldl (reschedStep parse now) (db, [])) p =
        ((l1.foldl (reschedStep parse now) (db, [])).1,
          (l1.foldl (reschedStep parse now) (db, [])).2 ++ [p.id]) := by
      rw [hstep, if_pos hfut]
    have hrest := foldl_resched_other parse now p.id l2
      (reschedStep parse now (l1.foldl (reschedStep parse now) (db, [])) p)
      hne2
    constructor
    · rw [hres]
      apply hrest.2.mpr
      rw [hstep2]
      exact List.mem_append.mpr (Or.inr (List.mem_singleton.mpr rfl))
    · rw [hres, hrest.1, hstep2]
      exact hacc1.1.trans hget

/-- Claim C4 witness: the past-time branch applied to a concrete
persisted scheduled post. -/
theorem C4_witness :
    get_post_by_id (reschedule_existing_posts c4parse 5 c4db).1 1 =
      some { (⟨1, "Hi", "Mastodon", some "T", "scheduled", "t",
        none⟩ : Post) with
        status := "failed"
        error_message := some "Missed scheduled time" } ∧
    (1 : Nat) ∉ (reschedule_existing_posts c4parse 5 c4db).2 ∧
    (reschedule_existing_posts c4parse 5 c4db).1.queue = c4db.queue :=
  (C4_reschedule_recovery c4parse 5 c4db
    ⟨1, "Hi", "Mastodon", some "T", "scheduled", "t", none⟩ "T" 0
    (by decide) (by decide) (by decide) rfl (by decide) rfl).1 (by decide)

theorem clientHandlers_shape (name : String) (e : PyErr) :
    ∃ d, clientHandlers name e = (false, some d) := by
  unfold clientHandlers
  split_ifs <;> exact ⟨_, rfl⟩

theorem clientPost_total (w : World) (platform : String)
    (creds : Option CredDict) (content : String) :
    ∃ out, clientPost w platform creds content = .ok out := by
  unfold clientPost facebookPost threadsPost twitterPost linkedinPost
    blueskyPost mastodonPost
  split_ifs <;> cases creds <;> try exact ⟨_, rfl⟩
  all_goals {
    rcases w.http 0 with e | r
    · exact ⟨_, rfl⟩
    · dsimp only
      split_ifs <;>
        first
          | exact ⟨_, rfl⟩
          | (rcases w.json_result with e | u
             · exact ⟨_, rfl⟩
             · dsimp only
               rcases w.http 1 with e | r2
               · exact ⟨_, rfl⟩
               · dsimp only
                 split_ifs <;> exact ⟨_, rfl⟩) }

theorem clientPost_noCreds (w : World) (platform : String)
    (content : String) :
    ∃ d, clientPost w platform none content = .ok (false, some d) := by
  unfold clientPost facebookPost threadsPost twitterPost linkedinPost
    blueskyPost mastodonPost
  split_ifs <;> exact ⟨_, rfl⟩

theorem clientPost_remote_fail (w : World) (platform : String)
    (creds : Option CredDict) (content : String)
    (hbad : ∀ n r, w.http n = .ok r →
      r.status_code ≠ 200 ∧ r.status_code ≠ 201) :
    ∃ d, clientPost w platform creds content = .ok (false, some d) := by
  unfold clientPost facebookPost threadsPost twitterPost linkedinPost
    blueskyPost mastodonPost
  split_ifs <;> cases creds <;> try exact ⟨_, rfl⟩
  all_goals {
    rcases hh : w.http 0 with e | r
    · dsimp only
      obtain ⟨d, hd⟩ := clientHandlers_shape _ e
      rw [hd]
      exact ⟨d, rfl⟩
    · dsimp only
      have hr := hbad 0 r hh
      first
        | (rw [if_neg hr.1]; exact ⟨_, rfl⟩)
        | (rw [if_neg hr.2]; exact ⟨_, rfl⟩)
        | (rw [if_pos hr.1]; exact ⟨_, rfl⟩) }

/-- Claim C6: for every world (credential store and network behaviour),
every content string and every platform identifier,
`post_to_single_platform` never lets an exception escape — it always
returns `.ok` of a `(success, detail)` pair; an unsupported platform, an
absent credential configuration, and ordinary remote failures (a raised
request exception or a non-2xx response on every call) are each reported
as a `(false, some detail)` pair. -/
theorem C6_publish_never_raises :
    ∀ (w : World) (content platform : String),
      (∃ out, post_to_single_platform w content platform = .ok out) ∧
      (platform ∉ PLATFORM_CLIENT_KEYS →
        post_to_single_platform w content platform =
          .ok (false, some ("Platform '" ++ platform ++ "' not supported"))) ∧
      (platform ∈ PLATFORM_CLIENT_KEYS → w.creds platform = .ok none →
        ∃ d, post_to_single_platform w content platform =
          .ok (false, some d)) ∧
      (platform ∈ PLATFORM_CLIENT_KEYS →
        (∀ n r, w.http n = .ok r →
          r.status_code ≠ 200 ∧ r.status_code ≠ 201) →
        ∃ d, post_to_single_platform w content platform =
          .ok (false, some d)) := by
  intro w content platform
  refine ⟨?_, ?_, ?_, ?_⟩
  · unfold post_to_single_platform
    split_ifs with hmem
    · rcases w.creds platform with e | creds
      · exact ⟨_, rfl⟩
      · dsimp only
        obtain ⟨out, hout⟩ := clientPost_total w platform creds content
        rw [hout]
        exact ⟨out, rfl⟩
    · exact ⟨_, rfl⟩
  · intro hmem
    unfold post_to_single_platform
    rw [if_neg hmem]
  · intro hmem hcreds
    unfold post_to_single_platform
    rw [if_pos hmem, hcreds]
    dsimp only
    obtain ⟨d, hd⟩ := clientPost_noCreds w platform content
    rw [hd]
    exact ⟨d, rfl⟩
  · intro hmem hbad
    unfold post_to_single_platform
    rw [if_pos hmem]
    rcases w.creds platform with e | creds
    · exact ⟨_, rfl⟩
    · dsimp only
      obtain ⟨d, hd⟩ := clientPost_remote_fail w platform creds content hbad
      rw [hd]
      exact ⟨d, rfl⟩

/-- Claim C6 witness: concrete world with no credentials and a raising
network — an unsupported platform and Facebook both yield failure
pairs. -/
theorem C6_witness :
    post_to_single_platform w0 "hi" "MySpace" =
      .ok (false, some ("Platform '" ++ "MySpace" ++ "' not supported")) ∧
    (∃ d, post_to_single_platform w0 "hi" "Facebook" =
      .ok (false, some d)) :=
  ⟨(C6_publish_never_raises w0 "hi" "MySpace").2.1 (by decide),
   (C6_publish_never_raises w0 "hi" "Facebook").2.2.1 (by decide) rfl⟩

end SocialCopilot
